import Mathlib

/-!
# SignUp form component (frontend/src/pages/SignUp.js)

A shallow embedding of the `SignUp` React component: its four pieces of
local state, the three `onChange` handlers, and the three event handlers
`handleSignUp`, `handleLogin`, `handleCancel`.

Effects outside the component state (`event.preventDefault()`, the
`axios.post` call, `navigate`, `console.log`) are recorded, in program
order, in an effect trace.  The answer of `axios.post` is supplied by the
environment as a function from the request to its outcome.  A handler is
run to completion: no other event is interleaved between the request and
the code after the `await`.  What the error slot of the JSX puts on the
page is given by `renderError`.
-/

namespace SignUp

/-! ## JavaScript values -/

/-- JavaScript values as they can arrive in a response body.  Numbers are
restricted to integers; an object is the list of its own properties. -/
inductive JsVal where
  | undefined
  | null
  | bool (b : Bool)
  | num (n : Int)
  | str (s : String)
  | arr (xs : List JsVal)
  | obj (fields : List (String × JsVal))

/-- JavaScript truthiness (`ToBoolean`): `undefined`, `null`, `false`, `0`
and the empty string are falsy, everything else is truthy. -/
def truthy : JsVal → Bool
  | .undefined => false
  | .null => false
  | .bool b => b
  | .num n => n != 0
  | .str s => s != ""
  | .arr _ => true
  | .obj _ => true

/-- Lookup of a key among the own properties of an object. -/
def lookupField (k : String) : List (String × JsVal) → Option JsVal
  | [] => none
  | (k', v) :: rest => if k' = k then some v else lookupField k rest

/-- Whether the value is an object with an own property `k`. -/
def hasField (v : JsVal) (k : String) : Bool :=
  match v with
  | .obj fields => (lookupField k fields).isSome
  | _ => false

/-- Property read `v.error` on a value `v` that is neither `undefined` nor
`null`: the property of an object when it has one, `undefined` otherwise
(strings, numbers, booleans and arrays have no property named `error`). -/
def getError (v : JsVal) : JsVal :=
  match v with
  | .obj fields =>
    match lookupField "error" fields with
    | some e => e
    | none => .undefined
  | _ => .undefined

/-! ## Component state -/

/-- The four `useState` cells of the component.  The three fields only
ever receive `''` or `e.target.value`, hence strings; `error` receives
whatever `setError` is given. -/
structure FormState where
  username : String
  email : String
  password : String
  error : JsVal

/-- State on mount: every `useState('')`. -/
def initialState : FormState :=
  { username := "", email := "", password := "", error := .str "" }

/-- The test `error &&` that guards the error paragraph in the JSX: true
exactly when the stored error value is truthy.  It tells that the paragraph
element is produced, not what the paragraph contains; the whole expression
is `renderError`. -/
def errorGuard (st : FormState) : Bool := truthy st.error

/-- What the expression `{error && <p className="error-message">{error}</p>}`
puts on the page: nothing, a bare text node outside any paragraph, the error
paragraph with its text, or no page at all because rendering throws. -/
inductive Rendered where
  | nothing
  | bareText (text : String)
  | paragraph (text : String)
  | fails

mutual
/-- Text that a value produces as a child of an element, `none` when the
value cannot be a child: strings and numbers give their text, booleans,
`null` and `undefined` give nothing, an array gives its children in order,
and a plain object is refused ("Objects are not valid as a React child"). -/
def childText : JsVal → Option String
  | .undefined => some ""
  | .null => some ""
  | .bool _ => some ""
  | .num n => some (toString n)
  | .str s => some s
  | .arr xs => childrenText xs
  | .obj _ => none
/-- Text of a list of children, `none` as soon as one of them is refused. -/
def childrenText : List JsVal → Option String
  | [] => some ""
  | x :: xs =>
    match childText x, childrenText xs with
    | some a, some b => some (a ++ b)
    | _, _ => none
end

/-- The expression `{error && <p className="error-message">{error}</p>}`.
With a truthy `error` it is the paragraph whose child is `error`.  With a
falsy `error` the expression is `error` itself: the number 0 is rendered as
bare text, the other falsy values render nothing. -/
def renderError (st : FormState) : Rendered :=
  if truthy st.error then
    match childText st.error with
    | some text => .paragraph text
    | none => .fails
  else
    match st.error with
    | .num n => .bareText (toString n)
    | _ => .nothing

/-! ## Environment: the HTTP client and the effect trace -/

/-- The object literal `{ username, email, password }` sent as body. -/
structure Payload where
  username : String
  email : String
  password : String

/-- An HTTP request as issued through the client. -/
structure Request where
  method : String
  url : String
  data : Payload

/-- The request that `axios.post(url, data)` sends. -/
def axiosPost (url : String) (data : Payload) : Request :=
  { method := "POST", url := url, data := data }

/-- A response object: the parts the component reads. -/
structure Response where
  status : Nat
  data : JsVal

/-- What `await axios.post(...)` produces: the promise resolves with a
response, or rejects with an error whose `response` is a response object
or is absent. -/
inductive Outcome where
  | resolved (response : Response)
  | rejected (response : Option Response)

/-- Observable effects of a handler outside the component state. -/
inductive Effect where
  | preventDefault
  | request (r : Request)
  | navigate (path : String)
  | log (msg : String)

/-- A handler run: the state afterwards and the effects in order. -/
structure Result where
  state : FormState
  effects : List Effect

/-- The requests of an effect trace, in order. -/
def requests : List Effect → List Request
  | [] => []
  | .request r :: rest => r :: requests rest
  | _ :: rest => requests rest

/-- The navigation targets of an effect trace, in order. -/
def navigations : List Effect → List String
  | [] => []
  | .navigate p :: rest => p :: navigations rest
  | _ :: rest => navigations rest

/-! ## Handlers -/

/-- The state setter `setError`. -/
def setError (v : JsVal) (st : FormState) : FormState :=
  { st with error := v }

/-- The handler `(e) => setUsername(e.target.value)`. -/
def onChangeUsername (value : String) (st : FormState) : FormState :=
  { st with username := value }

/-- The handler `(e) => setEmail(e.target.value)`. -/
def onChangeEmail (value : String) (st : FormState) : FormState :=
  { st with email := value }

/-- The handler `(e) => setPassword(e.target.value)`. -/
def onChangePassword (value : String) (st : FormState) : FormState :=
  { st with password := value }

/-- The `catch (err)` block of `handleSignUp`, for an error whose
`response` is `response`. -/
def handleError (response : Option Response) (st : FormState) : Result :=
  match response with
  | some r =>
    if truthy r.data && truthy (getError r.data) then
      { state := setError (getError r.data) st, effects := [] }
    else
      { state := setError (.str "An unexpected error occurred.") st, effects := [] }
  | none =>
    { state := setError (.str "Unable to connect to the server.") st, effects := [] }

/-- The code of `handleSignUp` after the `await`: the rest of the `try`
block for a resolved promise, the `catch` block for a rejected one. -/
def afterAwait (o : Outcome) (st : FormState) : Result :=
  match o with
  | .resolved response =>
    if response.status = 201 then
      { state := st, effects := [.log "Sign-up successful!", .navigate "/login"] }
    else
      { state := st, effects := [] }
  | .rejected response => handleError response st

/-- The submit handler `handleSignUp`; `post` is the environment answering
the request. -/
def handleSignUp (post : Request → Outcome) (st : FormState) : Result :=
  if !truthy (.str st.username) || !truthy (.str st.email) || !truthy (.str st.password) then
    { state := setError (.str "Please fill in all fields.") st,
      effects := [.preventDefault] }
  else
    let req := axiosPost "/api/auth/register"
      { username := st.username, email := st.email, password := st.password }
    let r := afterAwait (post req) st
    { state := r.state, effects := [.preventDefault, .request req] ++ r.effects }

/-- The handler `handleLogin`. -/
def handleLogin (st : FormState) : Result :=
  { state := st, effects := [.navigate "/login"] }

/-- The handler `handleCancel`. -/
def handleCancel (st : FormState) : Result :=
  { state := st, effects := [.navigate "/"] }

/-- The events the rendered form can deliver to the component. -/
inductive Op where
  | editUsername (value : String)
  | editEmail (value : String)
  | editPassword (value : String)
  | login
  | cancel
  | submit

/-- Dispatch of an event to its handler, as wired in the JSX. -/
def step (post : Request → Outcome) (op : Op) (st : FormState) : Result :=
  match op with
  | .editUsername v => { state := onChangeUsername v st, effects := [] }
  | .editEmail v => { state := onChangeEmail v st, effects := [] }
  | .editPassword v => { state := onChangePassword v st, effects := [] }
  | .login => handleLogin st
  | .cancel => handleCancel st
  | .submit => handleSignUp post st

/-! ## Unfolding lemmas -/

/-- A string is truthy exactly when it is not the empty string. -/
theorem truthy_str_iff (s : String) : truthy (.str s) = true ↔ s ≠ "" := by
  simp [truthy]

/-- With an empty field the handler stops at the validation branch. -/
theorem handleSignUp_invalid (post : Request → Outcome) (st : FormState)
    (h : st.username = "" ∨ st.email = "" ∨ st.password = "") :
    handleSignUp post st =
      { state := setError (.str "Please fill in all fields.") st,
        effects := [.preventDefault] } := by
  unfold handleSignUp
  rw [if_pos]
  rcases h with h | h | h <;> simp [truthy, h]

/-- With three non-empty fields the handler issues the request and goes on
with the code after the `await`. -/
theorem handleSignUp_valid (post : Request → Outcome) (st : FormState)
    (hu : st.username ≠ "") (he : st.email ≠ "") (hp : st.password ≠ "") :
    handleSignUp post st =
      { state := (afterAwait (post (axiosPost "/api/auth/register"
            { username := st.username, email := st.email, password := st.password })) st).state,
        effects := [.preventDefault, .request (axiosPost "/api/auth/register"
            { username := st.username, email := st.email, password := st.password })] ++
          (afterAwait (post (axiosPost "/api/auth/register"
            { username := st.username, email := st.email, password := st.password })) st).effects } := by
  unfold handleSignUp
  rw [if_neg]
  simp [truthy, hu, he, hp]

/-- The code after the `await` issues no request. -/
theorem requests_afterAwait (o : Outcome) (st : FormState) :
    requests (afterAwait o st).effects = [] := by
  unfold afterAwait handleError
  split
  · split <;> simp [requests]
  · split
    · split <;> simp [requests]
    · simp [requests]

/-- The `catch` block never navigates. -/
theorem navigations_handleError (response : Option Response) (st : FormState) :
    navigations (handleError response st).effects = [] := by
  unfold handleError
  split
  · split <;> simp [navigations]
  · simp [navigations]

/-- The `catch` block always leaves a truthy error value. -/
theorem truthy_handleError (response : Option Response) (st : FormState) :
    truthy (handleError response st).state.error = true := by
  unfold handleError
  split
  · split
    · rename_i h
      simp only [Bool.and_eq_true] at h
      simpa [setError] using h.2
    · simp [setError, truthy]
  · simp [setError, truthy]

/-- A submit either leaves the state as it was or leaves a truthy error
value. -/
theorem handleSignUp_state_or_truthy (post : Request → Outcome) (st : FormState) :
    (handleSignUp post st).state = st ∨
    truthy (handleSignUp post st).state.error = true := by
  by_cases hv : st.username = "" ∨ st.email = "" ∨ st.password = ""
  · right
    rw [handleSignUp_invalid post st hv]
    simp [setError, truthy]
  · simp only [not_or] at hv
    obtain ⟨hu, he, hp⟩ := hv
    rw [handleSignUp_valid post st hu he hp]
    cases post (axiosPost "/api/auth/register"
        { username := st.username, email := st.email, password := st.password }) with
    | resolved response =>
      left
      simp only [afterAwait]
      split <;> rfl
    | rejected response =>
      right
      exact truthy_handleError response st

/-- A truthy value is not the empty string. -/
theorem ne_empty_of_truthy (v : JsVal) (h : truthy v = true) : v ≠ .str "" := by
  intro hv
  rw [hv] at h
  simp [truthy] at h

/-- Rendering of a state whose error is a non-empty string: the paragraph
with that string. -/
theorem renderError_str (st : FormState) (m : String) (h : st.error = .str m)
    (hm : m ≠ "") : renderError st = .paragraph m := by
  simp [renderError, h, truthy, hm, childText]

/-- Rendering of a state whose error is a plain object throws. -/
theorem renderError_obj (st : FormState) (fs : List (String × JsVal))
    (h : st.error = .obj fs) : renderError st = .fails := by
  simp [renderError, h, truthy, childText]

/-! ## Submit: validation and request -/

/-- C1: when at least one of username, email, password is the empty string,
submit sets the error message to "Please fill in all fields.", issues no
request and does not navigate; when all three are non-empty (whitespace
included) a request is issued. -/
theorem submit_validation (post : Request → Outcome) (st : FormState) :
    ((st.username = "" ∨ st.email = "" ∨ st.password = "") →
      (handleSignUp post st).state.error = .str "Please fill in all fields." ∧
      requests (handleSignUp post st).effects = [] ∧
      navigations (handleSignUp post st).effects = []) ∧
    ((st.username ≠ "" ∧ st.email ≠ "" ∧ st.password ≠ "") →
      requests (handleSignUp post st).effects ≠ []) := by
  constructor
  · intro h
    rw [handleSignUp_invalid post st h]
    simp [setError, requests, navigations]
  · rintro ⟨hu, he, hp⟩
    rw [handleSignUp_valid post st hu he hp]
    simp [requests]

/-- C1 at concrete inputs: an empty email is refused with the validation
message and no request; three whitespace-only fields are sent. -/
theorem submit_validation_witness :
    ((handleSignUp (fun _ => .rejected none)
        { username := "ama", email := "", password := "pw", error := .str "" }).state.error
        = .str "Please fill in all fields." ∧
      requests (handleSignUp (fun _ => .rejected none)
        { username := "ama", email := "", password := "pw", error := .str "" }).effects = [] ∧
      navigations (handleSignUp (fun _ => .rejected none)
        { username := "ama", email := "", password := "pw", error := .str "" }).effects = []) ∧
    requests (handleSignUp (fun _ => .rejected none)
        { username := " ", email := " ", password := " ", error := .str "" }).effects ≠ [] :=
  ⟨(submit_validation (fun _ => .rejected none)
      { username := "ama", email := "", password := "pw", error := .str "" }).1
      (Or.inr (Or.inl rfl)),
   (submit_validation (fun _ => .rejected none)
      { username := " ", email := " ", password := " ", error := .str "" }).2
      ⟨by decide, by decide, by decide⟩⟩

/-- C2: with all three fields non-empty, one submit issues exactly one
request, a POST to "/api/auth/register" whose payload holds the three
current field values, whatever the environment answers. -/
theorem submit_single_post (post : Request → Outcome) (st : FormState)
    (hu : st.username ≠ "") (he : st.email ≠ "") (hp : st.password ≠ "") :
    requests (handleSignUp post st).effects =
      [{ method := "POST", url := "/api/auth/register",
         data := { username := st.username, email := st.email, password := st.password } }] := by
  rw [handleSignUp_valid post st hu he hp]
  simp [requests, requests_afterAwait, axiosPost]

/-- C2 at a concrete input, with an environment that answers 500. -/
theorem submit_single_post_witness :
    ("ama" ≠ "" ∧ "ama@example.org" ≠ "" ∧ "s3cret" ≠ "") ∧
    requests (handleSignUp (fun _ => .rejected (some { status := 500, data := .null }))
        { username := "ama", email := "ama@example.org", password := "s3cret",
          error := .str "" }).effects =
      [{ method := "POST", url := "/api/auth/register",
         data := { username := "ama", email := "ama@example.org", password := "s3cret" } }] :=
  ⟨⟨by decide, by decide, by decide⟩,
   submit_single_post (fun _ => .rejected (some { status := 500, data := .null }))
      { username := "ama", email := "ama@example.org", password := "s3cret", error := .str "" }
      (by decide) (by decide) (by decide)⟩

/-! ## Submit: reaction to the outcome -/

/-- C3: when all fields are non-empty and the request resolves with a
response of status s, the component navigates to "/login" exactly when
s = 201; any other resolved status produces no navigation at all. -/
theorem submit_navigates_iff_created (post : Request → Outcome) (st : FormState)
    (s : Nat) (d : JsVal)
    (hu : st.username ≠ "") (he : st.email ≠ "") (hp : st.password ≠ "")
    (hres : post { method := "POST", url := "/api/auth/register",
                   data := { username := st.username, email := st.email,
                             password := st.password } }
              = .resolved { status := s, data := d }) :
    (navigations (handleSignUp post st).effects = ["/login"] ↔ s = 201) ∧
    (s ≠ 201 → navigations (handleSignUp post st).effects = []) := by
  rw [handleSignUp_valid post st hu he hp]
  simp only [axiosPost, hres, afterAwait]
  by_cases h : s = 201
  · simp [h, navigations]
  · simp [h, navigations]

/-- C3 at concrete inputs: status 201 navigates to "/login", status 200
does not navigate. -/
theorem submit_navigates_iff_created_witness :
    ((navigations (handleSignUp (fun _ => .resolved { status := 201, data := .null })
        { username := "ama", email := "a@b.c", password := "pw", error := .str "" }).effects
        = ["/login"] ↔ 201 = 201) ∧
     (201 ≠ 201 → navigations (handleSignUp (fun _ => .resolved { status := 201, data := .null })
        { username := "ama", email := "a@b.c", password := "pw", error := .str "" }).effects
        = [])) ∧
    navigations (handleSignUp (fun _ => .resolved { status := 200, data := .null })
        { username := "ama", email := "a@b.c", password := "pw", error := .str "" }).effects
        = [] :=
  ⟨submit_navigates_iff_created (fun _ => .resolved { status := 201, data := .null })
      { username := "ama", email := "a@b.c", password := "pw", error := .str "" }
      201 .null (by decide) (by decide) (by decide) rfl,
   (submit_navigates_iff_created (fun _ => .resolved { status := 200, data := .null })
      { username := "ama", email := "a@b.c", password := "pw", error := .str "" }
      200 .null (by decide) (by decide) (by decide) rfl).2 (by decide)⟩

/-- C4 fails as stated, in two ways.  An error response with status 409
whose body is the object with `error` equal to the empty string leaves the
generic message, not the (empty) server message.  A response with status
200 whose body carries `error` equal to "Username taken", delivered as a
resolved promise, sets no message at all: the error stays empty. -/
theorem submit_server_message_counterexample :
    (409 ≠ 201 ∧
      lookupField "error" [("error", JsVal.str "")] = some (.str "") ∧
      (handleSignUp
          (fun _ => .rejected (some { status := 409, data := .obj [("error", .str "")] }))
          { username := "ama", email := "a@b.c", password := "pw",
            error := .str "" }).state.error
        = .str "An unexpected error occurred." ∧
      (handleSignUp
          (fun _ => .rejected (some { status := 409, data := .obj [("error", .str "")] }))
          { username := "ama", email := "a@b.c", password := "pw",
            error := .str "" }).state.error
        ≠ .str "") ∧
    (200 ≠ 201 ∧
      lookupField "error" [("error", JsVal.str "Username taken")]
        = some (.str "Username taken") ∧
      (handleSignUp
          (fun _ => .resolved { status := 200,
                                data := .obj [("error", .str "Username taken")] })
          { username := "ama", email := "a@b.c", password := "pw",
            error := .str "" }).state.error
        = .str "" ∧
      (handleSignUp
          (fun _ => .resolved { status := 200,
                                data := .obj [("error", .str "Username taken")] })
          { username := "ama", email := "a@b.c", password := "pw",
            error := .str "" }).state.error
        ≠ .str "Username taken") := by
  refine ⟨⟨by decide, by simp [lookupField], ?_, ?_⟩,
    ⟨by decide, by simp [lookupField], ?_, ?_⟩⟩ <;>
    simp [handleSignUp, truthy, afterAwait, handleError, getError, lookupField, setError]

/-- C4, amended: take a collaborator response of non-201 status whose body
has an `error` field with message m, and a submit with all fields
non-empty.  When the response arrives as an error response (the promise
rejects, `err.response` is set), the displayed error message is exactly m
if m is non-empty, and is "An unexpected error occurred." if m is the
empty string.  When the request resolves with that response, the submit
sets no message and does not navigate: the state is unchanged. -/
theorem submit_server_message (post : Request → Outcome) (st : FormState)
    (s : Nat) (fields : List (String × JsVal)) (m : String)
    (hu : st.username ≠ "") (he : st.email ≠ "") (hp : st.password ≠ "")
    (hs : s ≠ 201)
    (hf : lookupField "error" fields = some (.str m)) :
    (post { method := "POST", url := "/api/auth/register",
            data := { username := st.username, email := st.email,
                      password := st.password } }
        = .rejected (some { status := s, data := .obj fields }) →
      (m ≠ "" →
        (handleSignUp post st).state.error = .str m ∧
        renderError (handleSignUp post st).state = .paragraph m) ∧
      (m = "" →
        (handleSignUp post st).state.error = .str "An unexpected error occurred." ∧
        renderError (handleSignUp post st).state
          = .paragraph "An unexpected error occurred.")) ∧
    (post { method := "POST", url := "/api/auth/register",
            data := { username := st.username, email := st.email,
                      password := st.password } }
        = .resolved { status := s, data := .obj fields } →
      (handleSignUp post st).state = st ∧
      navigations (handleSignUp post st).effects = []) := by
  rw [handleSignUp_valid post st hu he hp]
  refine ⟨fun hrej => ⟨fun hm => ?_, fun hm => ?_⟩, fun hres => ?_⟩
  · simp [axiosPost, hrej, afterAwait, handleError, getError, hf, truthy, hm, setError,
      renderError, childText]
  · simp [axiosPost, hrej, afterAwait, handleError, getError, hf, truthy, hm, setError,
      renderError, childText]
  · simp [axiosPost, hres, afterAwait, hs, navigations]

/-- C4, amended, at concrete inputs: an error response 409 with body
`{ error: "Username taken" }` shows "Username taken", the same with
`{ error: "" }` shows the generic message, and a resolved 200 with body
`{ error: "Username taken" }` leaves the state as it was. -/
theorem submit_server_message_witness :
    (409 ≠ 201 ∧ "Username taken" ≠ "" ∧
      (handleSignUp
          (fun _ => .rejected (some { status := 409,
                                      data := .obj [("error", .str "Username taken")] }))
          { username := "ama", email := "a@b.c", password := "pw",
            error := .str "" }).state.error
        = .str "Username taken" ∧
      renderError (handleSignUp
          (fun _ => .rejected (some { status := 409,
                                      data := .obj [("error", .str "Username taken")] }))
          { username := "ama", email := "a@b.c", password := "pw",
            error := .str "" }).state
        = .paragraph "Username taken") ∧
    ((handleSignUp
          (fun _ => .rejected (some { status := 409, data := .obj [("error", .str "")] }))
          { username := "ama", email := "a@b.c", password := "pw",
            error := .str "" }).state.error
        = .str "An unexpected error occurred." ∧
      renderError (handleSignUp
          (fun _ => .rejected (some { status := 409, data := .obj [("error", .str "")] }))
          { username := "ama", email := "a@b.c", password := "pw",
            error := .str "" }).state
        = .paragraph "An unexpected error occurred.") ∧
    (200 ≠ 201 ∧
      (handleSignUp
          (fun _ => .resolved { status := 200,
                                data := .obj [("error", .str "Username taken")] })
          { username := "ama", email := "a@b.c", password := "pw",
            error := .str "" }).state
        = { username := "ama", email := "a@b.c", password := "pw", error := .str "" } ∧
      navigations (handleSignUp
          (fun _ => .resolved { status := 200,
                                data := .obj [("error", .str "Username taken")] })
          { username := "ama", email := "a@b.c", password := "pw",
            error := .str "" }).effects
        = []) :=
  ⟨⟨by decide, by decide,
    ((submit_server_message
      (fun _ => .rejected (some { status := 409,
                                  data := .obj [("error", .str "Username taken")] }))
      { username := "ama", email := "a@b.c", password := "pw", error := .str "" }
      409 [("error", .str "Username taken")] "Username taken"
      (by decide) (by decide) (by decide) (by decide)
      (by simp [lookupField])).1 rfl).1 (by decide)⟩,
   ((submit_server_message
      (fun _ => .rejected (some { status := 409, data := .obj [("error", .str "")] }))
      { username := "ama", email := "a@b.c", password := "pw", error := .str "" }
      409 [("error", .str "")] ""
      (by decide) (by decide) (by decide) (by decide)
      (by simp [lookupField])).1 rfl).2 rfl,
   ⟨by decide,
    (submit_server_message
      (fun _ => .resolved { status := 200,
                            data := .obj [("error", .str "Username taken")] })
      { username := "ama", email := "a@b.c", password := "pw", error := .str "" }
      200 [("error", .str "Username taken")] "Username taken"
      (by decide) (by decide) (by decide) (by decide)
      (by simp [lookupField])).2 rfl⟩⟩

/-- C5 fails as stated: a response with status 204 and no body, delivered
as a resolved promise, sets no message: on a fresh form the error stays
empty instead of becoming "An unexpected error occurred.". -/
theorem submit_generic_message_counterexample :
    204 ≠ 201 ∧
    hasField .undefined "error" = false ∧
    (handleSignUp (fun _ => .resolved { status := 204, data := .undefined })
        { username := "ama", email := "a@b.c", password := "pw", error := .str "" }).state.error
      = .str "" ∧
    (handleSignUp (fun _ => .resolved { status := 204, data := .undefined })
        { username := "ama", email := "a@b.c", password := "pw", error := .str "" }).state.error
      ≠ .str "An unexpected error occurred." := by
  refine ⟨by decide, rfl, ?_, ?_⟩ <;>
    simp [handleSignUp, truthy, afterAwait]

/-- C5, amended: when all fields are non-empty and the request fails with
an error that carries a response (the promise rejects, `err.response` is
set) of non-201 status whose body has no `error` field (a missing body
included), the error message after submit is exactly
"An unexpected error occurred.". -/
theorem submit_generic_message (post : Request → Outcome) (st : FormState)
    (s : Nat) (d : JsVal)
    (hu : st.username ≠ "") (he : st.email ≠ "") (hp : st.password ≠ "")
    (_hs : s ≠ 201) (hno : hasField d "error" = false)
    (hrej : post { method := "POST", url := "/api/auth/register",
                   data := { username := st.username, email := st.email,
                             password := st.password } }
              = .rejected (some { status := s, data := d })) :
    (handleSignUp post st).state.error = .str "An unexpected error occurred." := by
  rw [handleSignUp_valid post st hu he hp]
  have hget : getError d = .undefined := by
    cases d <;> simp [getError]
    rename_i fields
    simp only [hasField] at hno
    cases hl : lookupField "error" fields with
    | none => rfl
    | some e => simp [hl] at hno
  simp [axiosPost, hrej, afterAwait, handleError, hget, truthy, setError]

/-- C5, amended, at concrete inputs: a 500 error response with no body,
and a 400 error response whose body is an object without `error`. -/
theorem submit_generic_message_witness :
    (500 ≠ 201 ∧ hasField .undefined "error" = false) ∧
    (handleSignUp (fun _ => .rejected (some { status := 500, data := .undefined }))
        { username := "ama", email := "a@b.c", password := "pw", error := .str "" }).state.error
      = .str "An unexpected error occurred." ∧
    (handleSignUp
        (fun _ => .rejected (some { status := 400, data := .obj [("message", .str "bad")] }))
        { username := "ama", email := "a@b.c", password := "pw", error := .str "" }).state.error
      = .str "An unexpected error occurred." :=
  ⟨⟨by decide, rfl⟩,
   submit_generic_message (fun _ => .rejected (some { status := 500, data := .undefined }))
      { username := "ama", email := "a@b.c", password := "pw", error := .str "" }
      500 .undefined (by decide) (by decide) (by decide) (by decide) rfl rfl,
   submit_generic_message
      (fun _ => .rejected (some { status := 400, data := .obj [("message", .str "bad")] }))
      { username := "ama", email := "a@b.c", password := "pw", error := .str "" }
      400 (.obj [("message", .str "bad")]) (by decide) (by decide) (by decide) (by decide)
      (by simp [hasField, lookupField]) rfl⟩

/-- C6: when all fields are non-empty and the request fails with no
response at all, the error message after submit is exactly
"Unable to connect to the server." and no navigation occurs. -/
theorem submit_transport_failure (post : Request → Outcome) (st : FormState)
    (hu : st.username ≠ "") (he : st.email ≠ "") (hp : st.password ≠ "")
    (hrej : post { method := "POST", url := "/api/auth/register",
                   data := { username := st.username, email := st.email,
                             password := st.password } }
              = .rejected none) :
    (handleSignUp post st).state.error = .str "Unable to connect to the server." ∧
    navigations (handleSignUp post st).effects = [] := by
  rw [handleSignUp_valid post st hu he hp]
  simp [axiosPost, hrej, afterAwait, handleError, setError, navigations]

/-- C6 at a concrete input. -/
theorem submit_transport_failure_witness :
    ("ama" ≠ "" ∧ "a@b.c" ≠ "" ∧ "pw" ≠ "") ∧
    (handleSignUp (fun _ => .rejected none)
        { username := "ama", email := "a@b.c", password := "pw", error := .str "" }).state.error
      = .str "Unable to connect to the server." ∧
    navigations (handleSignUp (fun _ => .rejected none)
        { username := "ama", email := "a@b.c", password := "pw", error := .str "" }).effects
      = [] :=
  ⟨⟨by decide, by decide, by decide⟩,
   submit_transport_failure (fun _ => .rejected none)
      { username := "ama", email := "a@b.c", password := "pw", error := .str "" }
      (by decide) (by decide) (by decide) rfl⟩

/-! ## Field edits and the two navigation buttons -/

/-- C7: editing one field sets that field to the new value and leaves the
other two fields and the error message unchanged; what the error slot puts
on the page is therefore the same after any edit: a message that is shown
stays shown. -/
theorem edit_frame (st : FormState) (v : String) :
    ((onChangeUsername v st).username = v ∧
      (onChangeUsername v st).email = st.email ∧
      (onChangeUsername v st).password = st.password ∧
      (onChangeUsername v st).error = st.error ∧
      errorGuard (onChangeUsername v st) = errorGuard st ∧
      renderError (onChangeUsername v st) = renderError st) ∧
    ((onChangeEmail v st).email = v ∧
      (onChangeEmail v st).username = st.username ∧
      (onChangeEmail v st).password = st.password ∧
      (onChangeEmail v st).error = st.error ∧
      errorGuard (onChangeEmail v st) = errorGuard st ∧
      renderError (onChangeEmail v st) = renderError st) ∧
    ((onChangePassword v st).password = v ∧
      (onChangePassword v st).username = st.username ∧
      (onChangePassword v st).email = st.email ∧
      (onChangePassword v st).error = st.error ∧
      errorGuard (onChangePassword v st) = errorGuard st ∧
      renderError (onChangePassword v st) = renderError st) := by
  simp [onChangeUsername, onChangeEmail, onChangePassword, errorGuard, renderError]

/-- C8: in every form state, Login navigates to "/login" and Cancel
navigates to "/"; that navigation is the only effect of either (no request,
no validation) and the fields and the error message are unchanged. -/
theorem login_cancel_navigate (st : FormState) :
    (navigations (handleLogin st).effects = ["/login"] ∧
      requests (handleLogin st).effects = [] ∧
      (handleLogin st).effects.length = 1 ∧
      (handleLogin st).state = st) ∧
    (navigations (handleCancel st).effects = ["/"] ∧
      requests (handleCancel st).effects = [] ∧
      (handleCancel st).effects.length = 1 ∧
      (handleCancel st).state = st) := by
  simp [handleLogin, handleCancel, navigations, requests]

/-! ## Outcomes of a submit -/

/-- C9 fails as stated, in two ways.  With all fields non-empty and a
request that resolves with status 200, the submit neither navigates nor
sets an error: on a fresh form the error is still empty and nothing is
rendered, and a previous message is not overwritten.  With an error
response 400 whose `error` field is an object, the submit does not navigate
and stores the object, which cannot be rendered: no message is displayed. -/
theorem submit_exhaustive_counterexample :
    (navigations (handleSignUp (fun _ => .resolved { status := 200, data := .null })
        { username := "ama", email := "a@b.c", password := "pw", error := .str "" }).effects
      = [] ∧
    (handleSignUp (fun _ => .resolved { status := 200, data := .null })
        { username := "ama", email := "a@b.c", password := "pw", error := .str "" }).state.error
      = .str "" ∧
    renderError (handleSignUp (fun _ => .resolved { status := 200, data := .null })
        { username := "ama", email := "a@b.c", password := "pw", error := .str "" }).state
      = .nothing ∧
    (handleSignUp (fun _ => .resolved { status := 200, data := .null })
        { username := "ama", email := "a@b.c", password := "pw",
          error := .str "Please fill in all fields." }).state.error
      = .str "Please fill in all fields.") ∧
    (navigations (handleSignUp
        (fun _ => .rejected (some { status := 400,
                                    data := .obj [("error", .obj [("message", .str "x")])] }))
        { username := "ama", email := "a@b.c", password := "pw", error := .str "" }).effects
      = [] ∧
    (handleSignUp
        (fun _ => .rejected (some { status := 400,
                                    data := .obj [("error", .obj [("message", .str "x")])] }))
        { username := "ama", email := "a@b.c", password := "pw", error := .str "" }).state.error
      = .obj [("message", .str "x")] ∧
    renderError (handleSignUp
        (fun _ => .rejected (some { status := 400,
                                    data := .obj [("error", .obj [("message", .str "x")])] }))
        { username := "ama", email := "a@b.c", password := "pw", error := .str "" }).state
      = .fails) := by
  refine ⟨⟨?_, ?_, ?_, ?_⟩, ?_, ?_, ?_⟩ <;>
    simp [handleSignUp, truthy, afterAwait, handleError, getError, lookupField, setError,
      navigations, renderError, childText]

/-- C9, amended: every completed submit ends in one of the six ways below,
each tied to its own condition on the fields and the outcome of the request.
(1) A field is empty: no request, no navigation, the error is set to
"Please fill in all fields." and displayed.
(2) The request resolved with status 201: navigation to "/login", state
unchanged.
(3) The request resolved with another status: no navigation, and the state,
previous error included, unchanged.
(4) The request was rejected with no response: no navigation, the error is
set to "Unable to connect to the server." and displayed.
(5) The request was rejected with a response whose body and whose `error`
value v are truthy: no navigation, the error is set to v; v is displayed as
the message when it is a string, which is then non-empty; when v is a plain
object rendering fails; in general what is rendered is the paragraph with
the child text of v.
(6) The request was rejected with a response whose body or `error` value is
falsy: no navigation, the error is set to
"An unexpected error occurred." and displayed.
In (1), (4), (5), (6) the fields are kept and the value set replaces the
previous error whatever it was. -/
theorem submit_outcomes (post : Request → Outcome) (st : FormState) :
    ((st.username = "" ∨ st.email = "" ∨ st.password = "") ∧
      requests (handleSignUp post st).effects = [] ∧
      navigations (handleSignUp post st).effects = [] ∧
      (handleSignUp post st).state = setError (.str "Please fill in all fields.") st ∧
      renderError (handleSignUp post st).state = .paragraph "Please fill in all fields.") ∨
    ((st.username ≠ "" ∧ st.email ≠ "" ∧ st.password ≠ "") ∧
      (∃ d, post { method := "POST", url := "/api/auth/register",
                   data := { username := st.username, email := st.email,
                             password := st.password } }
              = .resolved { status := 201, data := d }) ∧
      navigations (handleSignUp post st).effects = ["/login"] ∧
      (handleSignUp post st).state = st) ∨
    ((st.username ≠ "" ∧ st.email ≠ "" ∧ st.password ≠ "") ∧
      (∃ s d, s ≠ 201 ∧
        post { method := "POST", url := "/api/auth/register",
               data := { username := st.username, email := st.email,
                         password := st.password } }
          = .resolved { status := s, data := d }) ∧
      navigations (handleSignUp post st).effects = [] ∧
      (handleSignUp post st).state = st) ∨
    ((st.username ≠ "" ∧ st.email ≠ "" ∧ st.password ≠ "") ∧
      post { method := "POST", url := "/api/auth/register",
             data := { username := st.username, email := st.email,
                       password := st.password } }
        = .rejected none ∧
      navigations (handleSignUp post st).effects = [] ∧
      (handleSignUp post st).state = setError (.str "Unable to connect to the server.") st ∧
      renderError (handleSignUp post st).state
        = .paragraph "Unable to connect to the server.") ∨
    ((st.username ≠ "" ∧ st.email ≠ "" ∧ st.password ≠ "") ∧
      ∃ r, post { method := "POST", url := "/api/auth/register",
                  data := { username := st.username, email := st.email,
                            password := st.password } }
             = .rejected (some r) ∧
        (truthy r.data = true ∧ truthy (getError r.data) = true) ∧
        navigations (handleSignUp post st).effects = [] ∧
        (handleSignUp post st).state = setError (getError r.data) st ∧
        (∀ m, getError r.data = .str m →
          m ≠ "" ∧ renderError (handleSignUp post st).state = .paragraph m) ∧
        (∀ fs, getError r.data = .obj fs →
          renderError (handleSignUp post st).state = .fails) ∧
        renderError (handleSignUp post st).state =
          (match childText (getError r.data) with
           | some text => .paragraph text
           | none => .fails)) ∨
    ((st.username ≠ "" ∧ st.email ≠ "" ∧ st.password ≠ "") ∧
      ∃ r, post { method := "POST", url := "/api/auth/register",
                  data := { username := st.username, email := st.email,
                            password := st.password } }
             = .rejected (some r) ∧
        ¬ (truthy r.data = true ∧ truthy (getError r.data) = true) ∧
        navigations (handleSignUp post st).effects = [] ∧
        (handleSignUp post st).state = setError (.str "An unexpected error occurred.") st ∧
        renderError (handleSignUp post st).state
          = .paragraph "An unexpected error occurred.") := by
  by_cases hv : st.username = "" ∨ st.email = "" ∨ st.password = ""
  · left
    rw [handleSignUp_invalid post st hv]
    exact ⟨hv, by simp [requests], by simp [navigations], rfl,
      by simp [renderError, setError, truthy, childText]⟩
  · right
    simp only [not_or] at hv
    obtain ⟨hu, he, hp⟩ := hv
    rw [handleSignUp_valid post st hu he hp]
    cases ho : post { method := "POST", url := "/api/auth/register",
                      data := { username := st.username, email := st.email,
                                password := st.password } } with
    | resolved response =>
      obtain ⟨s, d⟩ := response
      by_cases hs : s = 201
      · left
        subst hs
        exact ⟨⟨hu, he, hp⟩, ⟨d, rfl⟩,
          by simp [axiosPost, ho, afterAwait, navigations],
          by simp [axiosPost, ho, afterAwait]⟩
      · right; left
        exact ⟨⟨hu, he, hp⟩, ⟨s, d, hs, rfl⟩,
          by simp [axiosPost, ho, afterAwait, navigations, hs],
          by simp [axiosPost, ho, afterAwait, hs]⟩
    | rejected response =>
      right; right
      cases response with
      | none =>
        left
        exact ⟨⟨hu, he, hp⟩, rfl,
          by simp [axiosPost, ho, afterAwait, handleError, navigations],
          by simp [axiosPost, ho, afterAwait, handleError],
          by simp [axiosPost, ho, afterAwait, handleError, renderError, setError, truthy,
            childText]⟩
      | some r =>
        right
        by_cases ht : truthy r.data = true ∧ truthy (getError r.data) = true
        · left
          have hstate : (afterAwait (post (axiosPost "/api/auth/register"
              { username := st.username, email := st.email, password := st.password })) st).state
              = setError (getError r.data) st := by
            simp [axiosPost, ho, afterAwait, handleError, ht.1, ht.2]
          refine ⟨⟨hu, he, hp⟩, r, rfl, ht, ?_, hstate, ?_, ?_, ?_⟩
          · simp [axiosPost, ho, afterAwait, navigations, navigations_handleError]
          · intro m hm
            have hne : m ≠ "" := by
              have := ht.2
              rw [hm] at this
              simpa [truthy] using this
            refine ⟨hne, ?_⟩
            show renderError (afterAwait _ st).state = _
            rw [hstate]
            exact renderError_str _ m (by simp [setError, hm]) hne
          · intro fs hfs
            show renderError (afterAwait _ st).state = _
            rw [hstate]
            exact renderError_obj _ fs (by simp [setError, hfs])
          · show renderError (afterAwait _ st).state = _
            rw [hstate]
            simp [renderError, setError, ht.2]
        · right
          have hstate : (afterAwait (post (axiosPost "/api/auth/register"
              { username := st.username, email := st.email, password := st.password })) st).state
              = setError (.str "An unexpected error occurred.") st := by
            simp only [axiosPost, ho, afterAwait, handleError]
            rw [if_neg]
            simpa [Bool.and_eq_true] using ht
          refine ⟨⟨hu, he, hp⟩, r, rfl, ht, ?_, hstate, ?_⟩
          · simp [axiosPost, ho, afterAwait, navigations, navigations_handleError]
          · show renderError (afterAwait _ st).state = _
            rw [hstate]
            simp [renderError, setError, truthy, childText]

/-! ## The error message is never reset -/

/-- C10: no operation resets the error message to empty.  From a state
whose error value is non-empty (truthy, so that the error paragraph is
produced; in particular not the empty string), after any operation (field
edit, Login, Cancel, submit with any outcome) it is still non-empty; and a
submit with all fields non-empty whose request resolves, with 201 or any
other status, leaves the error message and the three fields as they were. -/
theorem error_never_reset (post : Request → Outcome) (op : Op) (st : FormState) :
    (errorGuard st = true → errorGuard (step post op st).state = true) ∧
    (st.error ≠ .str "" → (step post op st).state.error ≠ .str "") ∧
    (∀ (s : Nat) (d : JsVal),
      (st.username ≠ "" ∧ st.email ≠ "" ∧ st.password ≠ "") →
      post { method := "POST", url := "/api/auth/register",
             data := { username := st.username, email := st.email,
                       password := st.password } }
        = .resolved { status := s, data := d } →
      (handleSignUp post st).state = st) := by
  refine ⟨?_, ?_, ?_⟩
  · intro h
    cases op with
    | submit =>
      rcases handleSignUp_state_or_truthy post st with hs | ht
      · simpa [step, hs] using h
      · simpa [step, errorGuard] using ht
    | _ => simpa [step, onChangeUsername, onChangeEmail, onChangePassword, handleLogin,
        handleCancel, errorGuard] using h
  · intro h
    cases op with
    | submit =>
      rcases handleSignUp_state_or_truthy post st with hs | ht
      · simpa [step, hs] using h
      · simpa [step] using ne_empty_of_truthy _ ht
    | _ => simpa [step, onChangeUsername, onChangeEmail, onChangePassword, handleLogin,
        handleCancel] using h
  · rintro s d ⟨hu, he, hp⟩ hres
    rw [handleSignUp_valid post st hu he hp]
    simp only [axiosPost, hres, afterAwait]
    split <;> rfl

/-- C10 at concrete inputs: with "Username taken" in the error slot, a
submit answered by an error response whose `error` is the empty string
still leaves a non-empty error, and a submit answered with 201 leaves the
state as it was. -/
theorem error_never_reset_witness :
    (errorGuard
        { username := "ama", email := "a@b.c", password := "pw",
          error := .str "Username taken" } = true ∧
      errorGuard (step
        (fun _ => .rejected (some { status := 409, data := .obj [("error", .str "")] }))
        .submit
        { username := "ama", email := "a@b.c", password := "pw",
          error := .str "Username taken" }).state = true) ∧
    (handleSignUp (fun _ => .resolved { status := 201, data := .null })
        { username := "ama", email := "a@b.c", password := "pw",
          error := .str "Username taken" }).state
      = { username := "ama", email := "a@b.c", password := "pw",
          error := .str "Username taken" } :=
  ⟨⟨by decide,
    (error_never_reset
      (fun _ => .rejected (some { status := 409, data := .obj [("error", .str "")] }))
      .submit
      { username := "ama", email := "a@b.c", password := "pw",
        error := .str "Username taken" }).1 (by decide)⟩,
   (error_never_reset (fun _ => .resolved { status := 201, data := .null }) .submit
      { username := "ama", email := "a@b.c", password := "pw",
        error := .str "Username taken" }).2.2 201 .null
      ⟨by decide, by decide, by decide⟩ rfl⟩

end SignUp
